import Mathlib

/-!
Verification of the screenshot microservice (`src/index.js`): an Express
server that accepts a screenshot request, immediately acknowledges it,
then asynchronously probes the target app, drives a headless browser,
adaptively compresses the captured image, uploads it to storage and
updates a database record, cleaning up the transient file.

The JavaScript program is embedded shallowly: external effects (fetch,
puppeteer, sharp, supabase, fs) are modelled by an environment record of
outcomes, and each function of the source becomes a Lean function over
that environment producing an event trace and a final state.  JS numbers
are IEEE doubles; the only arithmetic the control flow depends on is
division of a byte count by 1024 and comparison with 30, which is exact
in doubles for all realistic sizes, so it is modelled in `ℚ`.
-/

namespace Screenshot

/-- `size / 1024` as performed by the JS code (`processedImageBuffer.length / 1024`):
exact rational division, faithful to IEEE double division by a power of two. -/
def kb (n : Nat) : ℚ := (n : ℚ) / 1024

/-- Whether the second compression pass executes: the code guards it with
`if (compressedSize > 30)` where `compressedSize = pass1 length / 1024`. -/
def pass2Runs (p1 : Nat) : Bool := decide (30 < kb p1)

/-- Byte length of the payload the compressor keeps, from `processAndUploadImage`
(src/index.js lines 49–70): pass 1 length `p1`; if `p1/1024 > 30`, pass 2 is
tried and its output `p2` is adopted only when `p2/1024 <= 30`. -/
def finalLen (p1 p2 : Nat) : Nat :=
  if 30 < kb p1 then
    (if kb p2 ≤ 30 then p2 else p1)
  else p1

/-- The same acceptance policy written over raw byte counts against
`30 * 1024 = 30720` bytes, used to state that the `/1024` rescaling never
changes which branch is taken. -/
def finalLenBytes (p1 p2 : Nat) : Nat :=
  if 30720 < p1 then
    (if p2 ≤ 30720 then p2 else p1)
  else p1

theorem kb_gt_iff (n : Nat) : 30 < kb n ↔ 30720 < n := by
  unfold kb
  rw [lt_div_iff₀ (by norm_num : (0 : ℚ) < 1024)]
  constructor
  · intro h
    exact_mod_cast h
  · intro h
    exact_mod_cast h

theorem kb_le_iff (n : Nat) : kb n ≤ 30 ↔ n ≤ 30720 := by
  unfold kb
  rw [div_le_iff₀ (by norm_num : (0 : ℚ) < 1024)]
  constructor
  · intro h
    exact_mod_cast h
  · intro h
    exact_mod_cast h

/-- C9: The compressor's acceptance decisions depend only on the byte length
compared against a fixed ceiling: the KB comparisons `pass1/1024 > 30` and
`pass2/1024 ≤ 30` are equivalent to comparing raw byte lengths against
`30 * 1024 = 30720`, and the kept payload computed with KB comparisons equals
the one computed with raw-byte comparisons; the division affects logging only. -/
theorem c9_kb_comparisons_equal_byte_comparisons (n p1 p2 : Nat) :
    (30 < kb n ↔ 30720 < n) ∧ (kb n ≤ 30 ↔ n ≤ 30720) ∧
    finalLen p1 p2 = finalLenBytes p1 p2 := by
  refine ⟨kb_gt_iff n, kb_le_iff n, ?_⟩
  unfold finalLen finalLenBytes
  by_cases h1 : 30720 < p1
  · rw [if_pos ((kb_gt_iff p1).mpr h1), if_pos h1]
    by_cases h2 : p2 ≤ 30720
    · rw [if_pos ((kb_le_iff p2).mpr h2), if_pos h2]
    · rw [if_neg (fun hc => h2 ((kb_le_iff p2).mp hc)), if_neg h2]
  · rw [if_neg (fun hc => h1 ((kb_gt_iff p1).mp hc)), if_neg h1]

/-- C1 fails on the code: with pass 1 at 45KB (46080 bytes) and pass 2 at
35KB (35840 bytes), pass 2 runs and is strictly smaller than pass 1, yet the
code keeps pass 1's 46080 bytes because pass 2 still exceeds the 30KB ceiling —
the claim says the final payload would be pass 2's 35KB output. -/
theorem c1_counterexample :
    pass2Runs 46080 = true ∧ 35840 < 46080 ∧
    finalLen 46080 35840 = 46080 ∧ finalLen 46080 35840 ≠ 35840 := by
  refine ⟨?_, by norm_num, ?_, ?_⟩
  · unfold pass2Runs
    rw [decide_eq_true_iff, kb_gt_iff]
    norm_num
  · unfold finalLen
    rw [if_pos ((kb_gt_iff 46080).mpr (by norm_num)),
      if_neg (fun hc => absurd ((kb_le_iff 35840).mp hc) (by norm_num))]
  · unfold finalLen
    rw [if_pos ((kb_gt_iff 46080).mpr (by norm_num)),
      if_neg (fun hc => absurd ((kb_le_iff 35840).mp hc) (by norm_num))]
    norm_num

/-- C1 amended: when pass 2 executes (pass 1 exceeds the 30720-byte ceiling),
pass 2's result is adopted exactly when it is at or under the ceiling,
regardless of how it compares to pass 1's size; otherwise pass 1's result is
kept even when pass 2 is smaller. -/
theorem c1_pass2_adopted_iff_under_ceiling (p1 p2 : Nat) (h : 30720 < p1) :
    finalLen p1 p2 = if p2 ≤ 30720 then p2 else p1 := by
  unfold finalLen
  rw [if_pos ((kb_gt_iff p1).mpr h)]
  by_cases h2 : p2 ≤ 30720
  · rw [if_pos ((kb_le_iff p2).mpr h2), if_pos h2]
  · rw [if_neg (fun hc => h2 ((kb_le_iff p2).mp hc)), if_neg h2]

theorem c1_pass2_adopted_iff_under_ceiling_witness :
    30720 < 46080 ∧ finalLen 46080 28672 = if 28672 ≤ 30720 then 28672 else 46080 :=
  ⟨by norm_num, c1_pass2_adopted_iff_under_ceiling 46080 28672 (by norm_num)⟩

/-- C4: the kept payload is never larger than pass 1's output, and when pass 1's
output is at or under the 30720-byte ceiling, pass 2 never executes. -/
theorem c4_final_size_monotone (p1 p2 : Nat) :
    finalLen p1 p2 ≤ p1 ∧ (p1 ≤ 30720 → pass2Runs p1 = false) := by
  constructor
  · unfold finalLen
    by_cases h1 : 30 < kb p1
    · rw [if_pos h1]
      by_cases h2 : kb p2 ≤ 30
      · rw [if_pos h2]
        have hp2 : p2 ≤ 30720 := (kb_le_iff p2).mp h2
        have hp1 : 30720 < p1 := (kb_gt_iff p1).mp h1
        omega
      · rw [if_neg h2]
    · rw [if_neg h1]
  · intro hle
    unfold pass2Runs
    rw [decide_eq_false_iff_not, kb_gt_iff]
    omega

theorem c4_final_size_monotone_witness :
    finalLen 10240 512 ≤ 10240 ∧ pass2Runs 10240 = false :=
  ⟨(c4_final_size_monotone 10240 512).1,
   (c4_final_size_monotone 10240 512).2 (by norm_num)⟩

/-! ## The asynchronous pipeline (`processScreenshotAsync`) and HTTP handler

External effects are modelled by an `Env` of outcomes: each Boolean says
whether the corresponding awaited operation succeeds or throws, and the two
`Nat` fields give the byte lengths the sharp encoder produces.  The pipeline
is a straight-line translation of the `try`/`catch` structure of
`processScreenshotAsync`: the first failing operation jumps to the catch
block, which attempts file cleanup and logs. -/

/-- Observable events of one request, in program order. -/
inductive Event where
  | respond200 (appName projectId : String)
  | respond400
  | probe
  | launch
  | navigate
  | capture
  | closeBrowser
  | upload
  | dbUpdate
  | unlinkAttempt
  | failLog
  | successLog
deriving DecidableEq, Repr

/-- Supabase-side state for one project: the stored screenshot object at
`screenshots/<id>.jpg` (its byte length, `none` when absent) and the
`screenshot` URL column of the project row. -/
structure Store where
  object : Option Nat
  recordUrl : String
deriving DecidableEq, Repr

/-- Outcomes of the external operations awaited by one request: `true` means
the awaited call succeeds, `false` that it throws (or, for `statusOk`, that
`checkResponse.ok` is false).  `pass1Len`/`pass2Len` are the byte lengths the
two sharp encodes would produce; `urlTime` is `Date.now()` at URL creation. -/
structure Env where
  fetchOk : Bool
  statusOk : Bool
  launchOk : Bool
  newPageOk : Bool
  gotoOk : Bool
  captureOk : Bool
  encode1Ok : Bool
  pass1Len : Nat
  encode2Ok : Bool
  pass2Len : Nat
  removeOk : Bool
  uploadOk : Bool
  updateOk : Bool
  closeOk : Bool
  unlinkOk : Bool
  urlTime : Nat
deriving DecidableEq, Repr

/-- Result of one pipeline run: the event trace, whether the transient
screenshot file still exists, whether the browser process is still alive,
and the supabase state. -/
structure Outcome where
  events : List Event
  fileExists : Bool
  browserOpen : Bool
  store : Store
deriving DecidableEq, Repr

/-- The compression stage of `processAndUploadImage` (lines 40–70): the
pass-1 encode (throwing on encoder error), the `> 30` KB check, and the
conditional pass-2 encode adopted only when `<= 30` KB. -/
def compressStep (env : Env) : Except Unit Nat :=
  if env.encode1Ok = false then .error ()
  else if 30 < kb env.pass1Len then
    if env.encode2Ok = false then .error ()
    else if kb env.pass2Len ≤ 30 then .ok env.pass2Len
    else .ok env.pass1Len
  else .ok env.pass1Len

/-- Public URL for the uploaded object, as built from `getPublicUrl` on
`screenshots/<id>.jpg?v=<timestamp>` (lines 96–100); the supabase client is
external, so the URL is modelled as a deterministic function of key and
timestamp. -/
def publicUrlFor (id : String) (t : Nat) : String :=
  "projects/screenshots/" ++ id ++ ".jpg?v=" ++ toString t

/-- `processAndUploadImage` (lines 34–126): compress, best-effort remove of
the old object (failure swallowed), upload (throwing on `uploadError`),
compute the public URL, update the project row (throwing on `updateError`).
Returns the thrown-or-returned result, the supabase state after whatever
side effects happened, and the publish events that were attempted. -/
def processAndUploadImage (env : Env) (id : String) (st : Store) :
    Except Unit (Nat × String) × Store × List Event :=
  match compressStep env with
  | .error _ => (.error (), st, [])
  | .ok final =>
    let st1 := if env.removeOk then { st with object := none } else st
    if env.uploadOk = false then (.error (), st1, [.upload])
    else
      let st2 := { st1 with object := some final }
      let url := publicUrlFor id env.urlTime
      if env.updateOk = false then (.error (), st2, [.upload, .dbUpdate])
      else (.ok (final, url), { st2 with recordUrl := url }, [.upload, .dbUpdate])

/-- The `catch` block of `processScreenshotAsync` (lines 300–316): log the
error, then attempt `unlinkSync` only when the filepath was set and the file
exists, swallowing any cleanup error, then log the failure.  The browser is
not touched here. -/
def catchBlock (evs : List Event) (fileEx browserOpen : Bool) (env : Env)
    (st : Store) : Outcome :=
  if fileEx then
    { events := evs ++ [.unlinkAttempt, .failLog]
      fileExists := !env.unlinkOk
      browserOpen := browserOpen
      store := st }
  else
    { events := evs ++ [.failLog]
      fileExists := false
      browserOpen := browserOpen
      store := st }

/-- `processScreenshotAsync` (lines 160–317): availability probe (early
`return` on failure, lines 168–184), browser launch, new page, navigation,
settle waits (timeouts swallowed, lines 233–246), screenshot to the unique
filepath, `browser.close()`, publish, then cleanup `unlinkSync` in its own
`try`/`catch`.  Any throw after the probe lands in `catchBlock`. -/
def processScreenshotAsync (env : Env) (id : String) (st : Store) : Outcome :=
  if env.fetchOk = false then
    { events := [.probe, .failLog], fileExists := false, browserOpen := false, store := st }
  else if env.statusOk = false then
    { events := [.probe, .failLog], fileExists := false, browserOpen := false, store := st }
  else if env.launchOk = false then
    catchBlock [.probe, .launch] false false env st
  else if env.newPageOk = false then
    catchBlock [.probe, .launch] false true env st
  else if env.gotoOk = false then
    catchBlock [.probe, .launch, .navigate] false true env st
  else if env.captureOk = false then
    catchBlock [.probe, .launch, .navigate] false true env st
  else if env.closeOk = false then
    catchBlock [.probe, .launch, .navigate, .capture, .closeBrowser] true true env st
  else
    match processAndUploadImage env id st with
    | (.error _, st1, evs) =>
      catchBlock ([.probe, .launch, .navigate, .capture, .closeBrowser] ++ evs)
        true false env st1
    | (.ok _, st1, evs) =>
      { events := [.probe, .launch, .navigate, .capture, .closeBrowser] ++ evs
          ++ [.unlinkAttempt, .successLog]
        fileExists := !env.unlinkOk
        browserOpen := false
        store := st1 }

/-- The `POST /api/fly/take-screenshot` handler (lines 129–157): a falsy
`project_id` (absent or empty) yields a 400 and nothing else runs; otherwise
the 200 acknowledgement with `app_name = kulp-<id>` is sent and only then is
`processScreenshotAsync` invoked, fire-and-forget. -/
def handleRequest (body : Option String) (env : Env) (st : Store) : Outcome :=
  match body with
  | none =>
    { events := [.respond400], fileExists := false, browserOpen := false, store := st }
  | some id =>
    if id = "" then
      { events := [.respond400], fileExists := false, browserOpen := false, store := st }
    else
      let o := processScreenshotAsync env id st
      { o with events := .respond200 ("kulp-" ++ id) id :: o.events }

/-! ## Concrete environments used as witnesses and failing inputs -/

/-- Environment in which every awaited operation succeeds and pass 1 already
meets the ceiling (10240 bytes = 10KB). -/
def envAllOk : Env :=
  { fetchOk := true, statusOk := true, launchOk := true, newPageOk := true,
    gotoOk := true, captureOk := true, encode1Ok := true, pass1Len := 10240,
    encode2Ok := true, pass2Len := 5120, removeOk := true, uploadOk := true,
    updateOk := true, closeOk := true, unlinkOk := true, urlTime := 7 }

/-- Environment in which the probe fetch resolves but the target answers a
non-success status (for example HTTP 503). -/
def envProbeDown : Env := { envAllOk with statusOk := false }

/-- Environment in which the probe succeeds, launch and page creation
succeed, and then `page.goto` exceeds its 30s timeout and throws. -/
def envNavTimeout : Env := { envAllOk with gotoOk := false, captureOk := false }

/-- Environment in which everything up to the storage upload succeeds and
the project-row update then fails. -/
def envUpdateFails : Env := { envAllOk with updateOk := false }

/-- Environment in which everything through the screenshot capture succeeds
and `browser.close()` then throws. -/
def envCloseFails : Env := { envAllOk with closeOk := false }

/-- Initial supabase state: no stored object, some previous URL in the row. -/
def store0 : Store := { object := none, recordUrl := "old" }

/-! ## Theorems about the pipeline -/

/-- C2 fails on the code: after a successful launch, a navigation timeout
lands in the catch block (lines 300–316), which deletes the file but never
calls `browser.close()` — the browser process is still alive when the
request ends, contradicting close-on-every-exit-path. -/
theorem c2_browser_leaked_on_navigation_timeout :
    Event.launch ∈ (processScreenshotAsync envNavTimeout "abc" store0).events ∧
    Event.closeBrowser ∉ (processScreenshotAsync envNavTimeout "abc" store0).events ∧
    (processScreenshotAsync envNavTimeout "abc" store0).browserOpen = true := by
  decide

theorem catchBlock_cleanup (evs : List Event) (bo : Bool) (env : Env) (st : Store) :
    Event.unlinkAttempt ∈ (catchBlock evs true bo env st).events ∧
      (env.unlinkOk = true → (catchBlock evs true bo env st).fileExists = false) := by
  constructor
  · simp [catchBlock]
  · intro h
    simp [catchBlock, h]

/-- C3: whenever the run captured the screenshot file, deletion of that file
is attempted on every exit path — success, close failure, or publish failure
— and when the deletion succeeds the file no longer exists at the end; a
failing deletion is swallowed by its own `try`/`catch`. -/
theorem c3_cleanup_attempted_on_every_exit (env : Env) (id : String) (st : Store)
    (h : Event.capture ∈ (processScreenshotAsync env id st).events) :
    Event.unlinkAttempt ∈ (processScreenshotAsync env id st).events ∧
      (env.unlinkOk = true → (processScreenshotAsync env id st).fileExists = false) := by
  unfold processScreenshotAsync at h ⊢
  by_cases h1 : env.fetchOk = false
  · rw [if_pos h1] at h
    simp at h
  rw [if_neg h1] at h ⊢
  by_cases h2 : env.statusOk = false
  · rw [if_pos h2] at h
    simp at h
  rw [if_neg h2] at h ⊢
  by_cases h3 : env.launchOk = false
  · rw [if_pos h3] at h
    simp [catchBlock] at h
  rw [if_neg h3] at h ⊢
  by_cases h4 : env.newPageOk = false
  · rw [if_pos h4] at h
    simp [catchBlock] at h
  rw [if_neg h4] at h ⊢
  by_cases h5 : env.gotoOk = false
  · rw [if_pos h5] at h
    simp [catchBlock] at h
  rw [if_neg h5] at h ⊢
  by_cases h6 : env.captureOk = false
  · rw [if_pos h6] at h
    simp [catchBlock] at h
  rw [if_neg h6] at h ⊢
  by_cases h7 : env.closeOk = false
  · rw [if_pos h7]
    exact catchBlock_cleanup _ _ env st
  rw [if_neg h7]
  rcases hp : processAndUploadImage env id st with ⟨res, st1, evs⟩
  cases res with
  | error e => exact catchBlock_cleanup _ _ env st1
  | ok v =>
    constructor
    · simp
    · intro hu
      simp [hu]

theorem c3_cleanup_attempted_on_every_exit_witness :
    Event.capture ∈ (processScreenshotAsync envCloseFails "abc" store0).events ∧
    Event.unlinkAttempt ∈ (processScreenshotAsync envCloseFails "abc" store0).events ∧
    (processScreenshotAsync envCloseFails "abc" store0).fileExists = false := by
  have hc : Event.capture ∈ (processScreenshotAsync envCloseFails "abc" store0).events := by
    decide
  have h := c3_cleanup_attempted_on_every_exit envCloseFails "abc" store0 hc
  exact ⟨hc, h.1, h.2 rfl⟩

/-- C5: for a non-empty identifier, the 200 acknowledgement event is the very
first event of the request — it precedes every pipeline event, in particular
any browser launch, whatever the pipeline outcome. -/
theorem c5_ack_precedes_pipeline (id : String) (env : Env) (st : Store)
    (h : id ≠ "") :
    (handleRequest (some id) env st).events =
      Event.respond200 ("kulp-" ++ id) id :: (processScreenshotAsync env id st).events := by
  simp [handleRequest, h]

theorem c5_ack_precedes_pipeline_witness :
    "abc" ≠ "" ∧
    (handleRequest (some "abc") envAllOk store0).events =
      Event.respond200 ("kulp-" ++ "abc") "abc" ::
        (processScreenshotAsync envAllOk "abc" store0).events :=
  ⟨by decide, c5_ack_precedes_pipeline "abc" envAllOk store0 (by decide)⟩

/-- C6: a request without a `project_id` gets HTTP 400 and nothing else
happens: the trace is only the 400 response (no probe, no launch, no capture,
no publish), no file exists, no browser runs and the backing store is
untouched. -/
theorem c6_missing_id_rejected (env : Env) (st : Store) :
    handleRequest none env st =
      { events := [Event.respond400], fileExists := false,
        browserOpen := false, store := st } ∧
    Event.probe ∉ (handleRequest none env st).events ∧
    Event.launch ∉ (handleRequest none env st).events := by
  refine ⟨rfl, ?_, ?_⟩ <;> simp [handleRequest]

/-- C7: when the availability probe fails (fetch throws or a non-success
status), the request ends with just the probe and a log entry: no launch, no
capture, no file, no publish, store unchanged. -/
theorem c7_probe_failure_terminal (env : Env) (id : String) (st : Store)
    (h : env.fetchOk = false ∨ env.statusOk = false) :
    processScreenshotAsync env id st =
      { events := [Event.probe, Event.failLog], fileExists := false,
        browserOpen := false, store := st } := by
  unfold processScreenshotAsync
  rcases h with h | h
  · rw [if_pos h]
  · by_cases h1 : env.fetchOk = false
    · rw [if_pos h1]
    · rw [if_neg h1, if_pos h]

theorem c7_probe_failure_terminal_witness :
    (envProbeDown.fetchOk = false ∨ envProbeDown.statusOk = false) ∧
    processScreenshotAsync envProbeDown "xyz" store0 =
      { events := [Event.probe, Event.failLog], fileExists := false,
        browserOpen := false, store := store0 } :=
  ⟨Or.inr rfl, c7_probe_failure_terminal envProbeDown "xyz" store0 (Or.inr rfl)⟩

/-! ## Artifact path uniqueness -/

/-- Transient artifact filename generated at line 252:
`screenshot-<id>-<Date.now()>.png`. -/
def screenshotFilename (id : String) (now : Nat) : String :=
  "screenshot-" ++ id ++ "-" ++ toString now ++ ".png"

/-- On-disk path of the transient artifact,
`path.join(screenshotsDir, filename)`. -/
def artifactPath (id : String) (now : Nat) : String :=
  "screenshots/" ++ screenshotFilename id now

/-- One in-flight request: the arrival index distinguishes distinct requests;
only `projectId` and `filenameTime` (the `Date.now()` millisecond observed at
filename generation) enter the path the code builds. -/
structure CaptureRequest where
  arrivalIndex : Nat
  projectId : String
  filenameTime : Nat
deriving DecidableEq, Repr

/-- Path used by one request. -/
def requestArtifactPath (r : CaptureRequest) : String :=
  artifactPath r.projectId r.filenameTime

/-- C8 fails on the code: two distinct concurrent requests for the same
project whose filenames are generated within the same millisecond receive
the identical on-disk path, so one request's cleanup can delete the other's
file. -/
theorem c8_path_collision :
    (⟨0, "abc", 1700000000000⟩ : CaptureRequest) ≠ ⟨1, "abc", 1700000000000⟩ ∧
    requestArtifactPath ⟨0, "abc", 1700000000000⟩ =
      requestArtifactPath ⟨1, "abc", 1700000000000⟩ :=
  ⟨by decide, rfl⟩

/-- C10: publishing is not atomic — when the upload succeeds and the
project-row update then fails, `processAndUploadImage` throws, yet the newly
uploaded object is already in storage at the logical key while the row keeps
its previous URL; nothing rolls the upload back. -/
theorem c10_publish_not_atomic (env : Env) (id : String) (st : Store) (f : Nat)
    (hc : compressStep env = .ok f) (hu : env.uploadOk = true)
    (hd : env.updateOk = false) :
    processAndUploadImage env id st =
      (.error (), { object := some f, recordUrl := st.recordUrl },
        [Event.upload, Event.dbUpdate]) := by
  rcases st with ⟨obj, rec⟩
  unfold processAndUploadImage
  rw [hc]
  simp [hu, hd]
  by_cases hr : env.removeOk <;> simp [hr]

theorem compressStep_envUpdateFails : compressStep envUpdateFails = Except.ok 10240 := by
  have h : ¬ (30 < kb 10240) := by
    rw [kb_gt_iff]
    norm_num
  simp [compressStep, envUpdateFails, envAllOk, h]

theorem c10_publish_not_atomic_witness :
    compressStep envUpdateFails = .ok 10240 ∧
    envUpdateFails.uploadOk = true ∧ envUpdateFails.updateOk = false ∧
    processAndUploadImage envUpdateFails "abc" store0 =
      (.error (), { object := some 10240, recordUrl := "old" },
        [Event.upload, Event.dbUpdate]) :=
  ⟨compressStep_envUpdateFails, rfl, rfl,
    c10_publish_not_atomic envUpdateFails "abc" store0 10240
      compressStep_envUpdateFails rfl rfl⟩

end Screenshot
